import Mathlib

/- Verification of the job-portal client core: a shallow embedding of the
   JobPortalState store (state.js) and of the JobAPI record normalizer
   (js/api.js), together with proofs of the specified properties.

   Modelling conventions:
   * machine numbers are Int / Nat; the only float arithmetic in the source is
     the salary-average comparator, which is embedded by an order-equivalent
     integer computation (see highKey / lowKey);
   * a JS throw is an Except.error carrying the thrown message; both throwing
     methods throw before mutating anything, so the store value returned
     alongside the error is the unchanged receiver;
   * the listener callbacks of the notification bus are outside the core; an
     emit call is recorded as an Event value in the result of each mutation;
   * localStorage persistence is write-only mirroring of in-memory state and is
     not part of the observable store state. -/

/-- Notifications emitted by the store (the emit calls in state.js). -/
inductive Event
  | roleChanged (role : String)
  | themeChanged (theme : String)
  | jobsUpdated
  | jobAdded (id : String)
  | jobUpdated
  | jobDeleted (id : String)
  | applicationSubmitted (id : String)
  | applicationUpdated (id : String)
  | jobSaved (id : String)
  | jobUnsaved (id : String)
  | filtersChanged
  | pageChanged
  | dataImported
deriving Repr, DecidableEq

/-- Canonical job record, the output shape of JobAPI.normalizeJob and the only
job shape the store holds. ISO-8601 timestamp strings are represented by
their numeric time value (what new Date(s).getTime() yields), since the store
only ever compares them. -/
structure Job where
  id : String
  title : String
  description : String
  company : String
  location : String
  salary_from : Option Int
  salary_to : Option Int
  employment_type : String
  application_deadline : Option Int
  qualifications : List String
  contact : String
  job_category : String
  is_remote_work : Bool
  number_of_opening : Int
  created_at : Int
  updated_at : Int
  source : String
deriving Repr, DecidableEq, Inhabited

/-- Application record created by applyForJob; the applicant-supplied fields are
name, email and coverLetter (the spread of applicantDetails). -/
structure Application where
  id : String
  jobId : String
  jobTitle : String
  company : String
  appliedAt : Int
  status : String
  name : String
  email : String
  coverLetter : String
deriving Repr, DecidableEq

/-- Applicant details spread into the application record by applyForJob. -/
structure ApplicantDetails where
  name : String
  email : String
  coverLetter : String
deriving Repr, DecidableEq

/-- FilterState of the store. -/
structure FilterState where
  search : String
  sort : String
  remoteOnly : Bool
  category : String
  location : String
deriving Repr, DecidableEq

/-- defaultFilters of the store constructor. -/
def defaultFilters : FilterState :=
  { search := "", sort := "newest", remoteOnly := false, category := "", location := "" }

/-- The observable state of a JobPortalState instance. -/
structure JobPortalState where
  userRole : String
  applications : List Application
  userJobs : List Job
  savedJobs : List String
  theme : String
  filters : FilterState
  currentPage : Nat
  allJobs : List Job
  filteredJobs : List Job
deriving Repr, DecidableEq

/-- The state produced by init with empty storage. -/
def initState : JobPortalState :=
  { userRole := "job_seeker", applications := [], userJobs := [], savedJobs := [],
    theme := "light", filters := defaultFilters, currentPage := 1,
    allJobs := [], filteredJobs := [] }

/-- itemsPerPage constant of the store. -/
def itemsPerPage : Nat := 9

/-- ASCII lower-casing, the behaviour of String.prototype.toLowerCase on the
ASCII data this portal handles. -/
def jsToLower (s : String) : String := String.mk (s.toList.map Char.toLower)

/-- True when the first list is an initial segment of the second. -/
def startsList : List Char → List Char → Bool
  | [], _ => true
  | _ :: _, [] => false
  | a :: as, b :: bs => a == b && startsList as bs

/-- True when the first list occurs contiguously inside the second. -/
def occursList : List Char → List Char → Bool
  | n, [] => n.isEmpty
  | n, b :: bs => startsList n (b :: bs) || occursList n bs

/-- Models String.prototype.includes hay.includes(needle). -/
def strIncludes (hay needle : String) : Bool := occursList needle.toList hay.toList

/-- JS truthiness of a salary bound as tested by the comparator expression
a.salary_from and a.salary_to: null and 0 are falsy, every other number is
truthy. -/
def salaryTruthy : Option Int → Bool
  | none => false
  | some n => n != 0

/-- Twice the salary average used by the salary_high comparator, with the falsy
case collapsed to 0 as in the source; comparing doubled averages is
order-equivalent to comparing the exact float averages
(salary_from + salary_to) / 2 computed by applyFilters. -/
def highKey (j : Job) : Int :=
  if salaryTruthy j.salary_from && salaryTruthy j.salary_to then
    j.salary_from.getD 0 + j.salary_to.getD 0
  else 0

/-- Twice the salary average used by the salary_low comparator; none stands for
the Infinity sentinel of the source. -/
def lowKey (j : Job) : Option Int :=
  if salaryTruthy j.salary_from && salaryTruthy j.salary_to then
    some (j.salary_from.getD 0 + j.salary_to.getD 0)
  else none

/-- Order on salary_low keys: none (Infinity) sorts after every finite key; two
Infinity keys tie (the comparator returns Infinity - Infinity = NaN there,
which the stable sort treats as not-greater, leaving the order unchanged). -/
def lowKeyLE : Option Int → Option Int → Bool
  | none, none => true
  | none, some _ => false
  | some _, none => true
  | some a, some b => a ≤ b

/-- The switch comparator of applyFilters as a boolean total preorder: sortLE k
a b is true exactly when the JS comparator returns a non-positive number on
(a, b), i.e. when the stable sort may keep a before b. -/
def sortLE (k : String) (a b : Job) : Bool :=
  match k with
  | "oldest" => a.created_at ≤ b.created_at
  | "salary_high" => highKey b ≤ highKey a
  | "salary_low" => lowKeyLE (lowKey a) (lowKey b)
  | _ => b.created_at ≤ a.created_at

/-- The filtered.sort(...) call: Array.prototype.sort is stable (ES2019), and a
stable sort by a consistent comparator preorder is uniquely determined, so
insertion sort by the comparator preorder is an exact model of it. -/
def sortJobs (k : String) (l : List Job) : List Job :=
  List.insertionSort (fun a b => sortLE k a b = true) l

/-- applyFilters on a job list: the four conjunctive filters applied in source
order (each guarded by the truthiness of its filter field), then the sort. -/
def computeFiltered (jobs : List Job) (f : FilterState) : List Job :=
  let l1 := if f.search ≠ "" then
      jobs.filter (fun j =>
        strIncludes (jsToLower j.title) (jsToLower f.search) ||
        strIncludes (jsToLower j.company) (jsToLower f.search) ||
        strIncludes (jsToLower j.description) (jsToLower f.search))
    else jobs
  let l2 := if f.remoteOnly then l1.filter (fun j => j.is_remote_work) else l1
  let l3 := if f.category ≠ "" then l2.filter (fun j => j.job_category = f.category) else l2
  let l4 := if f.location ≠ "" then
      l3.filter (fun j => strIncludes (jsToLower j.location) (jsToLower f.location))
    else l3
  sortJobs f.sort l4

/-- applyFilters on the store: recompute filteredJobs from allJobs and the
active FilterState. -/
def applyFilters (s : JobPortalState) : JobPortalState :=
  { s with filteredJobs := computeFiltered s.allJobs s.filters }

/-- setAllJobs. -/
def setAllJobs (s : JobPortalState) (jobs : List Job) : JobPortalState × List Event :=
  (applyFilters { s with allJobs := jobs }, [Event.jobsUpdated])

/-- deleteJob removes every record with the id from both collections. -/
def deleteJob (s : JobPortalState) (jobId : String) : JobPortalState × List Event :=
  (applyFilters { s with
      userJobs := s.userJobs.filter (fun j => j.id ≠ jobId),
      allJobs := s.allJobs.filter (fun j => j.id ≠ jobId) },
   [Event.jobDeleted jobId, Event.jobsUpdated])

/-- hasApplied. -/
def hasApplied (s : JobPortalState) (jobId : String) : Bool :=
  s.applications.any (fun app => app.jobId = jobId)

/-- isJobSaved. -/
def isJobSaved (s : JobPortalState) (jobId : String) : Bool :=
  s.savedJobs.contains jobId

/-- applyForJob. The two throws happen before any mutation, so the state paired
with an error is the unchanged receiver. The id template
app_Date.now()_random is abstracted by the appId argument and the appliedAt
timestamp by now. -/
def applyForJob (s : JobPortalState) (jobId : String) (d : ApplicantDetails)
    (now : Int) (appId : String) :
    JobPortalState × Except String (Application × List Event) :=
  if hasApplied s jobId then
    (s, Except.error "You have already applied for this job")
  else
    match s.allJobs.find? (fun j => j.id = jobId) with
    | none => (s, Except.error "Job not found")
    | some job =>
      let application : Application :=
        { id := appId, jobId := jobId, jobTitle := job.title, company := job.company,
          appliedAt := now, status := "pending",
          name := d.name, email := d.email, coverLetter := d.coverLetter }
      ({ s with applications := s.applications ++ [application] },
       Except.ok (application, [Event.applicationSubmitted appId]))

/-- saveJob. -/
def saveJob (s : JobPortalState) (jobId : String) : JobPortalState × List Event :=
  if isJobSaved s jobId then (s, [])
  else ({ s with savedJobs := s.savedJobs ++ [jobId] }, [Event.jobSaved jobId])

/-- unsaveJob: indexOf / splice removes the first occurrence when present. -/
def unsaveJob (s : JobPortalState) (jobId : String) : JobPortalState × List Event :=
  if s.savedJobs.contains jobId then
    ({ s with savedJobs := s.savedJobs.erase jobId }, [Event.jobUnsaved jobId])
  else (s, [])

/-- Pagination info returned by getPaginationInfo; Math.ceil(totalItems / 9) on
naturals is (totalItems + 8) / 9, and the trailing JS idiom tp or 1 turns the
value 0 into 1. -/
structure PaginationInfo where
  currentPage : Nat
  totalPages : Nat
  totalItems : Nat
  hasPrevPage : Bool
  hasNextPage : Bool
deriving Repr, DecidableEq

/-- getPaginationInfo. -/
def getPaginationInfo (s : JobPortalState) : PaginationInfo :=
  let totalItems := s.filteredJobs.length
  let tp := (totalItems + 8) / 9
  let totalPages := if tp = 0 then 1 else tp
  { currentPage := s.currentPage, totalPages := totalPages, totalItems := totalItems,
    hasPrevPage := decide (1 < s.currentPage),
    hasNextPage := decide (s.currentPage < totalPages) }

/-- setPage: clamp to [1, totalPages], update and notify only on change. -/
def setPage (s : JobPortalState) (page : Int) : JobPortalState × List Event :=
  let info := getPaginationInfo s
  let newPage : Int := max 1 (min page (info.totalPages : Int))
  if (s.currentPage : Int) ≠ newPage then
    ({ s with currentPage := newPage.toNat }, [Event.pageChanged])
  else (s, [])

/-- getPaginatedJobs: the slice [(page-1)*9, page*9) of the filtered view. -/
def getPaginatedJobs (s : JobPortalState) : List Job :=
  ((s.filteredJobs.drop ((s.currentPage - 1) * itemsPerPage)).take itemsPerPage)

/-- Partial FilterState merged by setFilters; an absent field keeps the current
value. -/
structure FilterPatch where
  search : Option String := none
  sort : Option String := none
  remoteOnly : Option Bool := none
  category : Option String := none
  location : Option String := none
deriving Repr, DecidableEq

/-- The spread merge of setFilters. -/
def mergeFilters (f : FilterState) (p : FilterPatch) : FilterState :=
  { search := p.search.getD f.search, sort := p.sort.getD f.sort,
    remoteOnly := p.remoteOnly.getD f.remoteOnly,
    category := p.category.getD f.category, location := p.location.getD f.location }

/-- setFilters: reset the page cursor to 1, merge, recompute, notify. -/
def setFilters (s : JobPortalState) (p : FilterPatch) : JobPortalState × List Event :=
  (applyFilters { s with currentPage := 1, filters := mergeFilters s.filters p },
   [Event.filtersChanged, Event.jobsUpdated])

/-- Partial job record merged by updateJob; an absent field keeps the current
value. The source spread also allows updated_at in the patch, but the
trailing updated_at: new Date() always overrides it, so it is omitted here. -/
structure JobPatch where
  id : Option String := none
  title : Option String := none
  description : Option String := none
  company : Option String := none
  location : Option String := none
  salary_from : Option (Option Int) := none
  salary_to : Option (Option Int) := none
  employment_type : Option String := none
  application_deadline : Option (Option Int) := none
  qualifications : Option (List String) := none
  contact : Option String := none
  job_category : Option String := none
  is_remote_work : Option Bool := none
  number_of_opening : Option Int := none
  created_at : Option Int := none
  source : Option String := none
deriving Repr, DecidableEq

/-- The spread merge of updateJob, with updated_at refreshed to now. -/
def mergeJob (j : Job) (p : JobPatch) (now : Int) : Job :=
  { id := p.id.getD j.id, title := p.title.getD j.title,
    description := p.description.getD j.description,
    company := p.company.getD j.company, location := p.location.getD j.location,
    salary_from := p.salary_from.getD j.salary_from,
    salary_to := p.salary_to.getD j.salary_to,
    employment_type := p.employment_type.getD j.employment_type,
    application_deadline := p.application_deadline.getD j.application_deadline,
    qualifications := p.qualifications.getD j.qualifications,
    contact := p.contact.getD j.contact,
    job_category := p.job_category.getD j.job_category,
    is_remote_work := p.is_remote_work.getD j.is_remote_work,
    number_of_opening := p.number_of_opening.getD j.number_of_opening,
    created_at := p.created_at.getD j.created_at, updated_at := now,
    source := p.source.getD j.source }

/-- updateJob: merge into the first match of userJobs (if any), then write into
the first match of allJobs — reusing the userJobs merge result when one was
made. The function is total: an unknown id signals no error. -/
def updateJob (s : JobPortalState) (jobId : String) (p : JobPatch) (now : Int) :
    JobPortalState × List Event :=
  let r1 : List Job × Option Job :=
    match s.userJobs.findIdx? (fun j => j.id = jobId) with
    | some i => (s.userJobs.set i (mergeJob s.userJobs[i]! p now),
                 some (mergeJob s.userJobs[i]! p now))
    | none => (s.userJobs, none)
  let r2 : List Job :=
    match s.allJobs.findIdx? (fun j => j.id = jobId) with
    | some i => s.allJobs.set i (r1.2.getD (mergeJob s.allJobs[i]! p now))
    | none => s.allJobs
  (applyFilters { s with userJobs := r1.1, allJobs := r2 },
   [Event.jobUpdated, Event.jobsUpdated])

/-- setUserRole throws on a role other than job_seeker or recruiter. -/
def setUserRole (s : JobPortalState) (role : String) :
    Except String (JobPortalState × List Event) :=
  if role ≠ "job_seeker" ∧ role ≠ "recruiter" then
    Except.error "Invalid role"
  else Except.ok ({ s with userRole := role }, [Event.roleChanged role])

/-- setTheme silently ignores a theme other than light or dark. -/
def setTheme (s : JobPortalState) (theme : String) : JobPortalState × List Event :=
  if theme ≠ "light" ∧ theme ≠ "dark" then (s, [])
  else ({ s with theme := theme }, [Event.themeChanged theme])

/-- The backup snapshot produced by exportData. -/
structure ExportRecord where
  userRole : String
  applications : List Application
  userJobs : List Job
  savedJobs : List String
  theme : String
  filters : FilterState
  exportedAt : Int
deriving Repr, DecidableEq

/-- exportData. -/
def exportData (s : JobPortalState) (now : Int) : ExportRecord :=
  { userRole := s.userRole, applications := s.applications, userJobs := s.userJobs,
    savedJobs := s.savedJobs, theme := s.theme, filters := s.filters,
    exportedAt := now }

/-- importData applies each field in source order inside a try block. The only
statement there that can throw is setUserRole, which runs first, so its
failure aborts the import with false before any assignment. In JS an array or
object value is truthy even when empty, so the applications, userJobs,
savedJobs and filters branches always run on a snapshot of this shape; the
spread of the snapshot filters over defaultFilters is the identity because an
exported FilterState carries all five keys. setTheme validates and silently
keeps the old theme on an invalid value. -/
def importData (s : JobPortalState) (d : ExportRecord) : JobPortalState × Bool :=
  if d.userRole ≠ "" ∧ d.userRole ≠ "job_seeker" ∧ d.userRole ≠ "recruiter" then
    (s, false)
  else
    let s1 := if d.userRole ≠ "" then { s with userRole := d.userRole } else s
    let s2 := if d.theme = "light" ∨ d.theme = "dark" then { s1 with theme := d.theme } else s1
    let s3 := { s2 with applications := d.applications }
    let s4 := { s3 with userJobs := d.userJobs }
    let s5 := { s4 with savedJobs := d.savedJobs }
    let s6 := { s5 with filters := d.filters }
    (s6, true)

/-- Drop JS whitespace from the front of a character list. -/
def skipWs : List Char → List Char
  | c :: cs => if c = ' ' ∨ c = '\t' ∨ c = '\n' ∨ c = '\r' then skipWs cs else c :: cs
  | [] => []

/-- Decode one JSON string escape character; the \uXXXX form does not occur in
the qualification data and is out of scope. -/
def escChar (c : Char) : Option Char :=
  match c with
  | '"' => some '"'
  | '\\' => some '\\'
  | '/' => some '/'
  | 'n' => some '\n'
  | 't' => some '\t'
  | 'r' => some '\r'
  | 'b' => some (Char.ofNat 8)
  | 'f' => some (Char.ofNat 12)
  | _ => none

/-- Consume a JSON string body after its opening quote. The first flag is true
right after a backslash; acc holds the decoded characters in reverse. -/
def takeJsonStr : Bool → List Char → List Char → Option (String × List Char)
  | _, [], _ => none
  | true, c :: cs, acc =>
    match escChar c with
    | some d => takeJsonStr false cs (d :: acc)
    | none => none
  | false, c :: cs, acc =>
    if c = '"' then some (String.mk acc.reverse, cs)
    else if c = '\\' then takeJsonStr true cs acc
    else takeJsonStr false cs (c :: acc)

/-- Consume the elements of a JSON array of strings after its opening bracket
(first element not yet read); fuel bounds the element count. -/
def takeJsonArr : Nat → List Char → List String → Option (List String)
  | 0, _, _ => none
  | fuel + 1, cs, acc =>
    match skipWs cs with
    | '"' :: rest =>
      match takeJsonStr false rest [] with
      | some (s, rest1) =>
        match skipWs rest1 with
        | ',' :: rest2 => takeJsonArr fuel rest2 (s :: acc)
        | ']' :: rest2 => if (skipWs rest2).isEmpty then some (s :: acc).reverse else none
        | _ => none
      | none => none
    | _ => none

/-- Models the host JSON.parse as used on the qualifications field: returns the
element list when the whole input is a JSON array of string literals, and
none otherwise. In the source both a parse failure (caught) and a
successfully parsed non-array (rejected by Array.isArray) lead to the same
empty qualifications, so collapsing them into none is observationally exact. -/
def jsonParseStrArray (s : String) : Option (List String) :=
  match skipWs s.toList with
  | '[' :: rest =>
    match skipWs rest with
    | ']' :: rest1 => if (skipWs rest1).isEmpty then some [] else none
    | _ => takeJsonArr (rest.length + 1) rest []
  | _ => none

/-- Models the host parseInt on the string conversion of a raw field value:
skip leading whitespace, an optional sign, then a maximal run of decimal
digits; none models NaN. The legacy 0x radix detection does not occur in this
data and is out of scope. -/
def parseIntJS (s : String) : Option Int :=
  let cs := skipWs s.toList
  let signed : Int × List Char :=
    match cs with
    | '-' :: rest => (-1, rest)
    | '+' :: rest => (1, rest)
    | _ => (1, cs)
  let ds := signed.2.takeWhile (fun c => c.isDigit)
  if ds.isEmpty then none
  else some (signed.1 * (ds.foldl (fun acc c => acc * 10 + (c.toNat - 48)) 0 : Nat))

/-- The defaulting idiom field or fallback of normalizeJob: a missing or empty
string is replaced by the fallback. -/
def strOrDefault (o : Option String) (d : String) : String :=
  match o with
  | some s => if s = "" then d else s
  | none => d

/-- Shape of the raw qualifications field as dispatched by normalizeJob:
a falsy value, a string, an array, or any other truthy value. -/
inductive RawQual
  | absent
  | str (s : String)
  | arr (l : List String)
  | other
deriving Repr, DecidableEq

/-- The qualifications normalization of normalizeJob: a truthy string is parsed
as JSON, everything that does not end up a genuine array collapses to []. -/
def normalizeQual : RawQual → List String
  | RawQual.arr l => l
  | RawQual.str s => if s = "" then [] else (jsonParseStrArray s).getD []
  | _ => []

/-- The salary coercion parseInt(x) or null of normalizeJob: NaN and the falsy
integer 0 both collapse to null. -/
def coerceSalary (o : Option String) : Option Int :=
  match o with
  | none => none
  | some s =>
    match parseIntJS s with
    | none => none
    | some n => if n = 0 then none else some n

/-- The openings coercion parseInt(x) or 1 of normalizeJob: NaN and the falsy
integer 0 both collapse to 1. -/
def coerceOpenings (o : Option String) : Int :=
  match o with
  | none => 1
  | some s =>
    match parseIntJS s with
    | none => 1
    | some n => if n = 0 then 1 else n

/-- A raw upstream record as read by normalizeJob. String-valued fields are
Option String (absent or a string); numeric raw fields are carried as their
JS string conversion, which is what parseInt receives; date fields carry the
parsed time value with none for absent or unparseable input, since parseDate
collapses both to null; is_remote_work carries its Boolean(...) coercion. -/
structure RawJob where
  id : Option String := none
  title : Option String := none
  description : Option String := none
  company : Option String := none
  location : Option String := none
  salary_from : Option String := none
  salary_to : Option String := none
  employment_type : Option String := none
  application_deadline : Option Int := none
  qualifications : RawQual := RawQual.absent
  contact : Option String := none
  job_category : Option String := none
  is_remote_work : Bool := false
  number_of_opening : Option String := none
  created_at : Option Int := none
  updated_at : Option Int := none
deriving Repr, DecidableEq

/-- Input to normalizeJob: either an object record, or a value (such as null)
whose property access throws — the outer catch then drops the record. -/
inductive RawInput
  | record (r : RawJob)
  | invalid
deriving Repr, DecidableEq

/-- normalizeJob: total on records; the invalid case is the outer catch
returning null. The synthesized id template job_Date.now()_random is
abstracted by now and rand. -/
def normalizeJob (input : RawInput) (now : Int) (rand : String) : Option Job :=
  match input with
  | RawInput.invalid => none
  | RawInput.record r =>
    some
      { id := strOrDefault r.id ("job_" ++ toString now ++ "_" ++ rand),
        title := strOrDefault r.title "Untitled Position",
        description := strOrDefault r.description "No description available",
        company := strOrDefault r.company "Unknown Company",
        location := strOrDefault r.location "Location not specified",
        salary_from := coerceSalary r.salary_from,
        salary_to := coerceSalary r.salary_to,
        employment_type := strOrDefault r.employment_type "Full-time",
        application_deadline := r.application_deadline,
        qualifications := normalizeQual r.qualifications,
        contact := strOrDefault r.contact "No contact information",
        job_category := strOrDefault r.job_category "Other",
        is_remote_work := r.is_remote_work,
        number_of_opening := coerceOpenings r.number_of_opening,
        created_at := r.created_at.getD now,
        updated_at := r.updated_at.getD now,
        source := "api" }

/-- normalizeJobs: map normalizeJob over the batch and drop the null results.
The Array.isArray guard of the source is subsumed by the list type. -/
def normalizeJobs (raws : List RawInput) (now : Int) (rand : String) : List Job :=
  (raws.map (fun r => normalizeJob r now rand)).filterMap id

/-- Sample canonical job used by the concrete witnesses. -/
def wJob : Job :=
  { id := "j1", title := "Frontend Developer", description := "Build UIs",
    company := "Tech Solutions Inc", location := "San Francisco, CA",
    salary_from := none, salary_to := none, employment_type := "Full-time",
    application_deadline := none, qualifications := [], contact := "hr@x.com",
    job_category := "Software Engineer", is_remote_work := true,
    number_of_opening := 1, created_at := 0, updated_at := 0, source := "api" }

/-- Sample store holding wJob, used by the concrete witnesses. -/
def wState : JobPortalState := { initState with allJobs := [wJob] }

/-- C1: applyForJob throws the duplicate-application error when an application
for the job already exists, throws the job-not-found error when the id is
absent from the canonical collection — in both failure cases the store, and in
particular its applications list, is unchanged and no record is created — and
otherwise appends exactly one application whose jobTitle and company snapshot
the current job record and whose status is pending, returning that
application. The spec names DuplicateApplication and JobNotFound denote the
two thrown messages. -/
theorem applyForJob_contract (s : JobPortalState) (jobId : String)
    (d : ApplicantDetails) (now : Int) (appId : String) :
    (hasApplied s jobId = true →
      applyForJob s jobId d now appId =
        (s, Except.error "You have already applied for this job")) ∧
    (hasApplied s jobId = false →
      s.allJobs.find? (fun j => j.id = jobId) = none →
      applyForJob s jobId d now appId = (s, Except.error "Job not found")) ∧
    (∀ job, hasApplied s jobId = false →
      s.allJobs.find? (fun j => j.id = jobId) = some job →
      ∃ app,
        applyForJob s jobId d now appId =
          ({ s with applications := s.applications ++ [app] },
           Except.ok (app, [Event.applicationSubmitted appId])) ∧
        app.status = "pending" ∧ app.jobTitle = job.title ∧
        app.company = job.company ∧ app.jobId = jobId) := by
  refine ⟨?_, ?_, ?_⟩
  · intro h
    simp [applyForJob, h]
  · intro h hf
    simp [applyForJob, h, hf]
  · intro job h hf
    refine ⟨{ id := appId, jobId := jobId, jobTitle := job.title, company := job.company,
              appliedAt := now, status := "pending", name := d.name, email := d.email,
              coverLetter := d.coverLetter }, ?_, rfl, rfl, rfl, rfl⟩
    simp [applyForJob, h, hf]

/-- Witness for C1: a fresh application against wState succeeds as stated. -/
theorem applyForJob_contract_witness :
    ∃ app,
      applyForJob wState "j1" ⟨"Ann", "a@x.com", ""⟩ 0 "app1" =
        ({ wState with applications := wState.applications ++ [app] },
         Except.ok (app, [Event.applicationSubmitted "app1"])) ∧
      app.status = "pending" ∧ app.jobTitle = wJob.title ∧
      app.company = wJob.company ∧ app.jobId = "j1" :=
  (applyForJob_contract wState "j1" ⟨"Ann", "a@x.com", ""⟩ 0 "app1").2.2 wJob
    (by decide) (by decide)

/-- C5: saveJob is idempotent. On any store whose saved list holds the id at
most once (the SavedJobReference set invariant), saving twice leaves the job
saved with exactly one list occurrence, fires jobSaved exactly once when the
id was not yet saved and on no call otherwise (only a state-changing call
notifies, and the second call never does); unsaveJob fires jobUnsaved exactly
when the id was saved. -/
theorem saveJob_idempotent (s : JobPortalState) (x : String)
    (h : s.savedJobs.count x ≤ 1) :
    isJobSaved (saveJob (saveJob s x).1 x).1 x = true ∧
    (saveJob (saveJob s x).1 x).1.savedJobs.count x = 1 ∧
    ((saveJob s x).2 ++ (saveJob (saveJob s x).1 x).2
      = if isJobSaved s x then [] else [Event.jobSaved x]) ∧
    (saveJob (saveJob s x).1 x).2 = [] ∧
    (∀ t y, ((unsaveJob t y).2 = [Event.jobUnsaved y] ↔ isJobSaved t y = true) ∧
            ((unsaveJob t y).2 = [] ↔ isJobSaved t y = false)) := by
  have hunsave : ∀ t y, ((unsaveJob t y).2 = [Event.jobUnsaved y] ↔ isJobSaved t y = true) ∧
      ((unsaveJob t y).2 = [] ↔ isJobSaved t y = false) := by
    intro t y
    by_cases hy : isJobSaved t y
    · simp [unsaveJob, isJobSaved] at hy ⊢
      simp [hy]
    · simp [unsaveJob, isJobSaved] at hy ⊢
      simp [hy]
  by_cases hx : isJobSaved s x
  · have hmem : x ∈ s.savedJobs := by
      simpa [isJobSaved] using hx
    have hpos : 0 < s.savedJobs.count x := List.count_pos_iff.mpr hmem
    have e1 : saveJob s x = (s, []) := by simp [saveJob, hx]
    refine ⟨?_, ?_, ?_, ?_, hunsave⟩
    · simp [e1, hx]
    · simp only [e1]
      omega
    · simp [e1, hx]
    · simp [e1, hx]
  · have hmem : x ∉ s.savedJobs := by
      simpa [isJobSaved] using hx
    have hzero : s.savedJobs.count x = 0 := List.count_eq_zero.mpr hmem
    have e1 : saveJob s x = ({ s with savedJobs := s.savedJobs ++ [x] }, [Event.jobSaved x]) := by
      simp [saveJob, hx]
    have hs1 : isJobSaved { s with savedJobs := s.savedJobs ++ [x] } x = true := by
      simp [isJobSaved]
    have e2 : saveJob { s with savedJobs := s.savedJobs ++ [x] } x
        = ({ s with savedJobs := s.savedJobs ++ [x] }, []) := by
      simp [saveJob, hs1]
    refine ⟨?_, ?_, ?_, ?_, hunsave⟩
    · simp [e1, e2, hs1]
    · simp [e1, e2, List.count_append, hzero]
    · simp [e1, e2, hx]
    · simp [e1, e2]

/-- Witness for C5: saving a fresh id twice in the initial store. -/
theorem saveJob_idempotent_witness :
    isJobSaved (saveJob (saveJob initState "j1").1 "j1").1 "j1" = true ∧
    (saveJob (saveJob initState "j1").1 "j1").1.savedJobs.count "j1" = 1 ∧
    ((saveJob initState "j1").2 ++ (saveJob (saveJob initState "j1").1 "j1").2
      = if isJobSaved initState "j1" then [] else [Event.jobSaved "j1"]) ∧
    (saveJob (saveJob initState "j1").1 "j1").2 = [] ∧
    (∀ t y, ((unsaveJob t y).2 = [Event.jobUnsaved y] ↔ isJobSaved t y = true) ∧
            ((unsaveJob t y).2 = [] ↔ isJobSaved t y = false)) :=
  saveJob_idempotent initState "j1" (by decide)

/-- C4: getPaginationInfo reports the exact ceiling of filtered size over the
page size 9 (characterized arithmetically), and reports 1 when the view is
empty; setPage clamps its integer argument to [1, totalPages], is a silent
no-op when the clamp equals the current page, otherwise moves to the clamped
page and fires pageChanged; setPage never alters the FilterState. -/
theorem pagination_contract (s : JobPortalState) (p : Int) :
    (s.filteredJobs.length = 0 → (getPaginationInfo s).totalPages = 1) ∧
    (0 < s.filteredJobs.length →
      9 * ((getPaginationInfo s).totalPages - 1) < s.filteredJobs.length ∧
      s.filteredJobs.length ≤ 9 * (getPaginationInfo s).totalPages) ∧
    1 ≤ (getPaginationInfo s).totalPages ∧
    (max 1 (min p (((getPaginationInfo s).totalPages : Int))) = (s.currentPage : Int) →
      setPage s p = (s, [])) ∧
    (max 1 (min p (((getPaginationInfo s).totalPages : Int))) ≠ (s.currentPage : Int) →
      ((setPage s p).1.currentPage : Int)
          = max 1 (min p (((getPaginationInfo s).totalPages : Int))) ∧
      (setPage s p).2 = [Event.pageChanged]) ∧
    (setPage s p).1.filters = s.filters := by
  have hqr : 9 * ((s.filteredJobs.length + 8) / 9) + (s.filteredJobs.length + 8) % 9
      = s.filteredJobs.length + 8 := Nat.div_add_mod _ _
  have hr : (s.filteredJobs.length + 8) % 9 < 9 := Nat.mod_lt _ (by omega)
  have htp : (getPaginationInfo s).totalPages
      = if (s.filteredJobs.length + 8) / 9 = 0 then 1 else (s.filteredJobs.length + 8) / 9 := rfl
  have hclamp : (0 : Int) ≤ max 1 (min p (((getPaginationInfo s).totalPages : Int))) := by
    have : (1 : Int) ≤ max 1 (min p (((getPaginationInfo s).totalPages : Int))) :=
      le_max_left _ _
    omega
  refine ⟨?_, ?_, ?_, ?_, ?_, ?_⟩
  · intro h
    rw [htp]
    split <;> omega
  · intro h
    rw [htp]
    split <;> omega
  · rw [htp]
    split <;> omega
  · intro hEq
    simp only [setPage]
    rw [if_neg]
    simp [hEq]
  · intro hNe
    simp only [setPage]
    rw [if_pos (by exact fun hc => hNe (by omega))]
    constructor
    · show ((max 1 (min p (((getPaginationInfo s).totalPages : Int)))).toNat : Int)
          = max 1 (min p (((getPaginationInfo s).totalPages : Int)))
      omega
    · rfl
  · simp only [setPage]
    split <;> rfl

/-- Witness for C4: in the empty initial store setPage 0 clamps to page 1 and is
a silent no-op, and in a two-page store setPage 5 clamps to page 2 and fires
pageChanged. -/
theorem pagination_contract_witness :
    setPage initState 0 = (initState, []) ∧
    (((setPage { initState with filteredJobs := List.replicate 10 wJob } 5).1.currentPage : Int)
        = 2 ∧
     (setPage { initState with filteredJobs := List.replicate 10 wJob } 5).2
        = [Event.pageChanged]) := by
  constructor
  · exact (pagination_contract initState 0).2.2.2.1 (by decide)
  · have h := (pagination_contract { initState with filteredJobs := List.replicate 10 wJob }
      5).2.2.2.2.1 (by decide)
    have e : max 1 (min 5 (((getPaginationInfo
        { initState with filteredJobs := List.replicate 10 wJob }).totalPages : Int))) = 2 := by
      decide
    rw [e] at h
    exact h

/-- C6: importing a store export restores an observably identical store and
returns true: every reachable store has userRole job_seeker or recruiter (the
constructor default and the setUserRole validation guarantee it), and under
that invariant importData applied to exportData is the identity on the whole
observable state — applications, userJobs, savedJobs, filters, role and
theme are restored with no record duplicated. -/
theorem export_import_roundtrip (s : JobPortalState) (now : Int)
    (h : s.userRole = "job_seeker" ∨ s.userRole = "recruiter") :
    importData s (exportData s now) = (s, true) := by
  obtain ⟨role, apps, uj, sj, th, fl, cp, aj, fj⟩ := s
  simp only [importData, exportData]
  rcases h with h | h <;>
    simp only at h <;>
    subst h <;>
    by_cases hth : th = "light" ∨ th = "dark" <;>
    simp [hth]

/-- Witness for C6: the initial store round-trips. -/
theorem export_import_roundtrip_witness :
    importData initState (exportData initState 0) = (initState, true) :=
  export_import_roundtrip initState 0 (Or.inl (by decide))

/-- C9: updateJob on an id absent from both collections is a silent no-op — the
embedding is a total function (the source throws nowhere in this method), so
no error reaches the caller, and both job collections are left unchanged;
when the id is found in both collections the record merged from the userJobs
match and the patch, with updated_at refreshed to now, is written at the
matching position of each collection. -/
theorem updateJob_contract (s : JobPortalState) (jobId : String) (p : JobPatch)
    (now : Int) :
    ((∀ j ∈ s.userJobs, j.id ≠ jobId) → (∀ j ∈ s.allJobs, j.id ≠ jobId) →
      (updateJob s jobId p now).1.userJobs = s.userJobs ∧
      (updateJob s jobId p now).1.allJobs = s.allJobs ∧
      (updateJob s jobId p now).1.applications = s.applications ∧
      (updateJob s jobId p now).1.savedJobs = s.savedJobs) ∧
    (∀ i k, s.userJobs.findIdx? (fun j => j.id = jobId) = some i →
      s.allJobs.findIdx? (fun j => j.id = jobId) = some k →
      (updateJob s jobId p now).1.userJobs
          = s.userJobs.set i (mergeJob s.userJobs[i]! p now) ∧
      (updateJob s jobId p now).1.allJobs
          = s.allJobs.set k (mergeJob s.userJobs[i]! p now)) ∧
    (∀ j, (mergeJob j p now).updated_at = now ∧
      (mergeJob j p now).title = p.title.getD j.title) := by
  refine ⟨?_, ?_, fun j => ⟨rfl, rfl⟩⟩
  · intro hu ha
    have hu2 : s.userJobs.findIdx? (fun j => decide (j.id = jobId)) = none :=
      List.findIdx?_eq_none_iff.mpr (fun x hx => by
        simpa using hu x hx)
    have ha2 : s.allJobs.findIdx? (fun j => decide (j.id = jobId)) = none :=
      List.findIdx?_eq_none_iff.mpr (fun x hx => by
        simpa using ha x hx)
    refine ⟨?_, ?_, ?_, ?_⟩ <;>
      simp [updateJob, hu2, ha2, applyFilters]
  · intro i k hi hk
    constructor <;>
      simp [updateJob, hi, hk, applyFilters]

/-- Witness for C9: on a one-job store the merge lands at index 0 of both
collections. -/
theorem updateJob_contract_witness :
    (updateJob { wState with userJobs := [wJob] } "j1" { title := some "New" } 7).1.userJobs
        = [wJob].set 0 (mergeJob [wJob][0]! { title := some "New" } 7) ∧
    (updateJob { wState with userJobs := [wJob] } "j1" { title := some "New" } 7).1.allJobs
        = [wJob].set 0 (mergeJob [wJob][0]! { title := some "New" } 7) :=
  (updateJob_contract { wState with userJobs := [wJob] } "j1" { title := some "New" } 7).2.1
    0 0 (by decide) (by decide)

/-- Specification predicate of the filter conjunction: a job passes when each of
the four active filters passes — empty search or a case-insensitive substring
hit on title, company or description; remoteOnly off or is_remote_work; empty
category or exact case-sensitive category equality; empty location or a
case-insensitive substring hit on location. -/
def matchesFilters (f : FilterState) (j : Job) : Bool :=
  (f.search = "" ||
    (strIncludes (jsToLower j.title) (jsToLower f.search) ||
     strIncludes (jsToLower j.company) (jsToLower f.search) ||
     strIncludes (jsToLower j.description) (jsToLower f.search))) &&
  (!f.remoteOnly || j.is_remote_work) &&
  (f.category = "" || j.job_category = f.category) &&
  (f.location = "" || strIncludes (jsToLower j.location) (jsToLower f.location))

/-- One guarded filter step of applyFilters as a single filter whose predicate
trivializes when the guard is off. -/
theorem filter_guard_eq (c : Prop) [Decidable c] (p : Job → Bool) (l : List Job) :
    (if c then l.filter p else l) = l.filter (fun j => if c then p j else true) := by
  by_cases h : c <;> simp [h]

/-- C2: the filtered view holds exactly the jobs of the canonical collection
satisfying the conjunction of the four active filters — the sequentially
applied source filters, followed by the sort, produce a permutation of the
single filter by the conjunction predicate, so membership and multiplicity
agree exactly. -/
theorem filter_conjunction (jobs : List Job) (f : FilterState) :
    (computeFiltered jobs f).Perm (jobs.filter (matchesFilters f)) := by
  simp only [computeFiltered, sortJobs]
  refine (List.perm_insertionSort _ _).trans ?_
  rw [filter_guard_eq, filter_guard_eq, filter_guard_eq, filter_guard_eq,
    List.filter_filter, List.filter_filter, List.filter_filter]
  have hpt : ∀ x ∈ jobs,
      ((((if f.location ≠ "" then strIncludes (jsToLower x.location) (jsToLower f.location)
            else true) &&
          (if f.category ≠ "" then decide (x.job_category = f.category) else true)) &&
         (if f.remoteOnly then x.is_remote_work else true)) &&
        (if f.search ≠ "" then
            strIncludes (jsToLower x.title) (jsToLower f.search) ||
            strIncludes (jsToLower x.company) (jsToLower f.search) ||
            strIncludes (jsToLower x.description) (jsToLower f.search)
          else true))
        = matchesFilters f x := by
    intro x hx
    by_cases h1 : f.search = "" <;> by_cases h2 : f.remoteOnly <;>
      by_cases h3 : f.category = "" <;> by_cases h4 : f.location = "" <;>
      simp [matchesFilters, h1, h2, h3, h4, Bool.and_assoc, Bool.and_comm,
        Bool.and_left_comm]
  rw [List.filter_congr hpt]

/-- Specification key of salary_high: the exact rational average of the two
salary bounds, treated as 0 when either bound is missing (null, or the falsy
value 0 conflated with it by the source). -/
def avgHighQ (j : Job) : ℚ :=
  match j.salary_from, j.salary_to with
  | some a, some b => if a ≠ 0 ∧ b ≠ 0 then ((a : ℚ) + (b : ℚ)) / 2 else 0
  | _, _ => 0

/-- Specification key of salary_low: the same average, treated as plus infinity
(the top element) when either bound is missing. -/
def avgLowQ (j : Job) : WithTop ℚ :=
  match j.salary_from, j.salary_to with
  | some a, some b =>
    if a ≠ 0 ∧ b ≠ 0 then ((((a : ℚ) + (b : ℚ)) / 2 : ℚ) : WithTop ℚ) else ⊤
  | _, _ => ⊤

/-- The rational salary_high key is half the integer comparator key. -/
theorem avgHighQ_eq_highKey (j : Job) : avgHighQ j = ((highKey j : ℚ)) / 2 := by
  rcases hf : j.salary_from with _ | a <;> rcases ht : j.salary_to with _ | b <;>
    simp [avgHighQ, highKey, salaryTruthy, hf, ht]
  by_cases ha : a = 0 <;> by_cases hb : b = 0 <;>
    simp [ha, hb]

/-- The rational salary_low key is half the integer comparator key, with the
missing case sent to the top element. -/
theorem avgLowQ_eq_lowKey (j : Job) :
    avgLowQ j = (lowKey j).elim ⊤ (fun n => (((n : ℚ) / 2 : ℚ) : WithTop ℚ)) := by
  rcases hf : j.salary_from with _ | a <;> rcases ht : j.salary_to with _ | b <;>
    simp [avgLowQ, lowKey, salaryTruthy, hf, ht]
  by_cases ha : a = 0 <;> by_cases hb : b = 0 <;>
    simp [ha, hb]

/-- The salary_high comparator branch. -/
theorem sortLE_high (a b : Job) :
    sortLE "salary_high" a b = decide (highKey b ≤ highKey a) := rfl

/-- The salary_low comparator branch. -/
theorem sortLE_low (a b : Job) :
    sortLE "salary_low" a b = lowKeyLE (lowKey a) (lowKey b) := rfl

/-- The boolean salary_low key order agrees with the rational order with its
infinity sentinel. -/
theorem lowKeyLE_iff_avg (a b : Job) :
    lowKeyLE (lowKey a) (lowKey b) = true ↔ avgLowQ a ≤ avgLowQ b := by
  rw [avgLowQ_eq_lowKey, avgLowQ_eq_lowKey]
  rcases lowKey a with _ | m <;> rcases lowKey b with _ | n <;> simp [lowKeyLE]
  rw [div_le_div_iff_of_pos_right (by norm_num : (0 : ℚ) < 2)]
  exact ⟨fun h => by exact_mod_cast h, fun h => by exact_mod_cast h⟩

/-- Sample job A of the spec scenario: salary 50k to 70k. -/
def jobA : Job :=
  { wJob with id := "A", title := "A", salary_from := some 50000, salary_to := some 70000 }

/-- Sample job B of the spec scenario: no salary data. -/
def jobB : Job := { wJob with id := "B", title := "B" }

/-- Sample job C of the spec scenario: salary 100k to 120k. -/
def jobC : Job :=
  { wJob with id := "C", title := "C", salary_from := some 100000, salary_to := some 120000 }

/-- C3: under salary_high the filtered view is ordered descending by the
average of the salary bounds with missing data treated as average 0, and
under salary_low it is ordered ascending by the same average with missing
data treated as average plus infinity — jobs without salary sink to the
bottom in both directions — and on the spec scenario A(50k-70k), B(no
salary), C(100k-120k) the two sorts yield [C, A, B] and [A, C, B]. -/
theorem salary_sort_order :
    (∀ (jobs : List Job) (f : FilterState), f.sort = "salary_high" →
      (computeFiltered jobs f).Pairwise (fun a b => avgHighQ b ≤ avgHighQ a)) ∧
    (∀ (jobs : List Job) (f : FilterState), f.sort = "salary_low" →
      (computeFiltered jobs f).Pairwise (fun a b => avgLowQ a ≤ avgLowQ b)) ∧
    computeFiltered [jobA, jobB, jobC] { defaultFilters with sort := "salary_high" }
      = [jobC, jobA, jobB] ∧
    computeFiltered [jobA, jobB, jobC] { defaultFilters with sort := "salary_low" }
      = [jobA, jobC, jobB] := by
  refine ⟨?_, ?_, by decide, by decide⟩
  · intro jobs f hs
    unfold computeFiltered sortJobs
    rw [hs]
    haveI : IsTotal Job (fun a b => sortLE "salary_high" a b = true) := ⟨fun a b => by
      simp only [sortLE_high, decide_eq_true_eq]
      exact le_total _ _⟩
    haveI : IsTrans Job (fun a b => sortLE "salary_high" a b = true) := ⟨fun a b c hab hbc => by
      simp only [sortLE_high, decide_eq_true_eq] at hab hbc ⊢
      exact le_trans hbc hab⟩
    refine List.Pairwise.imp ?_ (List.sorted_insertionSort _ _)
    intro a b hab
    simp only [sortLE_high, decide_eq_true_eq] at hab
    rw [avgHighQ_eq_highKey, avgHighQ_eq_highKey,
      div_le_div_iff_of_pos_right (by norm_num : (0 : ℚ) < 2)]
    exact_mod_cast hab
  · intro jobs f hs
    unfold computeFiltered sortJobs
    rw [hs]
    have htot : ∀ x y : Option Int, lowKeyLE x y = true ∨ lowKeyLE y x = true := by
      intro x y
      rcases x with _ | m <;> rcases y with _ | n <;> simp [lowKeyLE]
      omega
    have htrans : ∀ x y z : Option Int,
        lowKeyLE x y = true → lowKeyLE y z = true → lowKeyLE x z = true := by
      intro x y z h1 h2
      rcases x with _ | m <;> rcases y with _ | n <;> rcases z with _ | q <;>
        simp_all [lowKeyLE]
      omega
    haveI : IsTotal Job (fun a b => sortLE "salary_low" a b = true) := ⟨fun a b => by
      simp only [sortLE_low]
      exact htot _ _⟩
    haveI : IsTrans Job (fun a b => sortLE "salary_low" a b = true) := ⟨fun a b c hab hbc => by
      simp only [sortLE_low] at hab hbc ⊢
      exact htrans _ _ _ hab hbc⟩
    refine List.Pairwise.imp ?_ (List.sorted_insertionSort _ _)
    intro a b hab
    simp only [sortLE_low] at hab
    exact (lowKeyLE_iff_avg a b).mp hab

/-- Witness for C3: the salary_high ordering on the concrete scenario. -/
theorem salary_sort_order_witness :
    (computeFiltered [jobA, jobB, jobC]
        { defaultFilters with sort := "salary_high" }).Pairwise
      (fun a b => avgHighQ b ≤ avgHighQ a) :=
  salary_sort_order.1 [jobA, jobB, jobC] { defaultFilters with sort := "salary_high" } rfl

/-- Raw record carrying the unparseable qualifications string of the spec test. -/
def rawBadQual : RawJob := { qualifications := RawQual.str "\x7bnot valid json" }

/-- Raw record missing its title. -/
def rawNoTitle : RawJob := { title := none }

/-- C7: normalization is total and fault-tolerant — the batch normalizer is a
total function returning a possibly shorter list, a record whose property
access throws is dropped without affecting the rest, an object record is
never dropped, the record with qualifications equal to the unparseable
string of the spec normalizes to empty qualifications, and a record missing
its title normalizes to the Untitled Position default. -/
theorem normalize_resilient :
    (∀ (raws : List RawInput) (now : Int) (rand : String),
      (normalizeJobs raws now rand).length ≤ raws.length) ∧
    (∀ (raws : List RawInput) (now : Int) (rand : String),
      normalizeJobs (RawInput.invalid :: raws) now rand = normalizeJobs raws now rand) ∧
    (∀ (r : RawJob) (now : Int) (rand : String),
      (normalizeJob (RawInput.record r) now rand).isSome = true) ∧
    (∀ (now : Int) (rand : String),
      (normalizeJob (RawInput.record rawBadQual) now rand).map Job.qualifications
        = some []) ∧
    (∀ (now : Int) (rand : String),
      (normalizeJob (RawInput.record rawNoTitle) now rand).map Job.title
        = some "Untitled Position") := by
  refine ⟨?_, ?_, ?_, ?_, ?_⟩
  · intro raws now rand
    calc (normalizeJobs raws now rand).length
        ≤ (raws.map fun r => normalizeJob r now rand).length :=
          List.length_filterMap_le _ _
      _ = raws.length := List.length_map _ _
  · intro raws now rand
    simp [normalizeJobs, normalizeJob]
  · intro r now rand
    simp [normalizeJob]
  · intro now rand
    rfl
  · intro now rand
    rfl

/-- Raw record whose salary bounds are the numeric strings 0 and 60000 and whose
openings value is the numeric string 0. -/
def rawZero : RawJob :=
  { salary_from := some "0", salary_to := some "60000", number_of_opening := some "0" }

/-- C8 counterexample: the raw value 0 is numeric — parseInt parses it to the
integer 0 — yet the normalizer maps salary_from to null instead of keeping
the integer 0, and maps the numeric openings value 0 to 1: the falsy
coalescing idiom parseInt(x) or null conflates 0 with missing data, so null
does not appear exactly for non-numeric input as claimed. -/
theorem salary_zero_counterexample :
    parseIntJS "0" = some 0 ∧
    (normalizeJob (RawInput.record rawZero) 0 "r").map Job.salary_from = some none ∧
    (normalizeJob (RawInput.record rawZero) 0 "r").map Job.salary_from ≠ some (some 0) ∧
    (normalizeJob (RawInput.record rawZero) 0 "r").map Job.number_of_opening = some 1 :=
  ⟨by decide, by decide, by decide, by decide⟩

/-- C8 as amended: salary_from and salary_to become null exactly when the raw
value is non-numeric or parses to the integer 0 (a nonzero numeric value is
kept as its parsed integer), and number_of_opening becomes 1 exactly when the
raw value is non-numeric or parses to 0 or to 1 (any other numeric value is
kept as its parsed integer). -/
theorem salary_coercion_amended (r : RawJob) (now : Int) (rand : String) (j : Job)
    (h : normalizeJob (RawInput.record r) now rand = some j) :
    (j.salary_from = none ↔
      (r.salary_from.bind parseIntJS = none ∨ r.salary_from.bind parseIntJS = some 0)) ∧
    (∀ n : Int, n ≠ 0 →
      (j.salary_from = some n ↔ r.salary_from.bind parseIntJS = some n)) ∧
    (j.salary_to = none ↔
      (r.salary_to.bind parseIntJS = none ∨ r.salary_to.bind parseIntJS = some 0)) ∧
    (∀ n : Int, n ≠ 0 →
      (j.salary_to = some n ↔ r.salary_to.bind parseIntJS = some n)) ∧
    (j.number_of_opening = 1 ↔
      (r.number_of_opening.bind parseIntJS = none ∨
       r.number_of_opening.bind parseIntJS = some 0 ∨
       r.number_of_opening.bind parseIntJS = some 1)) ∧
    (∀ n : Int, n ≠ 0 → n ≠ 1 →
      (j.number_of_opening = n ↔ r.number_of_opening.bind parseIntJS = some n)) := by
  have key : ∀ o : Option String,
      (coerceSalary o = none ↔ (o.bind parseIntJS = none ∨ o.bind parseIntJS = some 0)) ∧
      (∀ n : Int, n ≠ 0 → (coerceSalary o = some n ↔ o.bind parseIntJS = some n)) := by
    intro o
    rcases o with _ | s
    · simp [coerceSalary]
    · rcases hp : parseIntJS s with _ | n
      · simp [coerceSalary, hp]
      · by_cases hn : n = 0
        · subst hn
          refine ⟨by simp [coerceSalary, hp], ?_⟩
          intro m hm
          simp [coerceSalary, hp]
          omega
        · refine ⟨by simp [coerceSalary, hp, hn], ?_⟩
          intro m hm
          simp [coerceSalary, hp, hn]
  have keyO : ∀ o : Option String,
      (coerceOpenings o = 1 ↔
        (o.bind parseIntJS = none ∨ o.bind parseIntJS = some 0 ∨
          o.bind parseIntJS = some 1)) ∧
      (∀ n : Int, n ≠ 0 → n ≠ 1 →
        (coerceOpenings o = n ↔ o.bind parseIntJS = some n)) := by
    intro o
    rcases o with _ | s
    · refine ⟨by simp [coerceOpenings], ?_⟩
      intro m h0 h1
      simp [coerceOpenings]
      omega
    · rcases hp : parseIntJS s with _ | n
      · refine ⟨by simp [coerceOpenings, hp], ?_⟩
        intro m h0 h1
        simp [coerceOpenings, hp]
        omega
      · by_cases hn : n = 0
        · subst hn
          refine ⟨by simp [coerceOpenings, hp], ?_⟩
          intro m h0 h1
          simp [coerceOpenings, hp]
          omega
        · by_cases hn1 : n = 1
          · subst hn1
            refine ⟨by simp [coerceOpenings, hp], ?_⟩
            intro m h0 h1
            simp [coerceOpenings, hp]
          · refine ⟨by simp [coerceOpenings, hp, hn, hn1], ?_⟩
            intro m h0 h1
            simp [coerceOpenings, hp, hn]
  simp only [normalizeJob, Option.some.injEq] at h
  subst h
  exact ⟨(key r.salary_from).1, (key r.salary_from).2, (key r.salary_to).1,
    (key r.salary_to).2, (keyO r.number_of_opening).1, (keyO r.number_of_opening).2⟩

/-- Raw record with a nonzero numeric salary string. -/
def rawSeventy : RawJob := { salary_from := some "70000" }

/-- The job rawSeventy normalizes to. -/
def jW : Job := (normalizeJob (RawInput.record rawSeventy) 0 "r").getD default

/-- Witness for the amended C8: a nonzero numeric salary string is kept as its
parsed integer. -/
theorem salary_coercion_amended_witness : jW.salary_from = some 70000 :=
  ((salary_coercion_amended rawSeventy 0 "r" jW rfl).2.1 70000 (by decide)).mpr (by decide)

/-- Sample job number i for the pagination scenario; ids p0 .. p9 stay distinct
for single digits. -/
def pageJob (i : Nat) : Job :=
  { wJob with
    id := String.mk ['p', Char.ofNat (48 + i)], created_at := (i : Int),
    is_remote_work := false }

/-- Store after setAllJobs with ten jobs: two pages of nine and one. -/
def stateTen : JobPortalState := (setAllJobs initState ((List.range 10).map pageJob)).1

/-- The same store after navigating to page 2. -/
def statePage2 : JobPortalState := (setPage stateTen 2).1

/-- The same store after deleteJob shrinks the view to nine jobs (one page). -/
def stateShrunk : JobPortalState := (deleteJob statePage2 (pageJob 0).id).1

/-- C10: the page cursor is only reset by filter changes and is never clamped
when the job set shrinks — after deleteJob (or setAllJobs) reduces the
filtered view from two pages to one while the store sits on page 2,
getPaginationInfo reports currentPage 2 above totalPages 1, and
getPaginatedJobs returns the empty slice although totalItems is 9 — so the
invariant currentPage at most totalPages is not preserved by every mutation,
while setFilters does reset the cursor to 1. -/
theorem page_cursor_not_clamped :
    (getPaginationInfo stateShrunk).currentPage = 2 ∧
    (getPaginationInfo stateShrunk).totalPages = 1 ∧
    (getPaginationInfo stateShrunk).totalItems = 9 ∧
    getPaginatedJobs stateShrunk = [] ∧
    ¬ (stateShrunk.currentPage ≤ (getPaginationInfo stateShrunk).totalPages) ∧
    (getPaginationInfo (setAllJobs statePage2 ((List.range 5).map pageJob)).1).currentPage
      = 2 ∧
    (getPaginationInfo (setAllJobs statePage2 ((List.range 5).map pageJob)).1).totalPages
      = 1 ∧
    (setFilters stateShrunk {}).1.currentPage = 1 := by
  refine ⟨?_, ?_, ?_, ?_, ?_, ?_, ?_, ?_⟩ <;> decide
